import Mathlib

/-!
Shallow embedding of the monitoring plugin's server-side core
(`x-pack/plugins/monitoring/server/plugin.ts`): the legacy request bridge,
the license-gated bulk-upload scheduling, cluster-name routing, the legacy
config wrapper, plugin lifecycle fields and the snapshot-version test.
JavaScript strings are modelled as Lean `String`, JS numbers in status
fields as `Nat` (with `0` the only falsy number), absent fields as
`none`, and JS objects as Lean structures.
-/

/-- JS truthiness for an optional numeric field: `undefined` and `0` are
falsy, every other number is truthy. Used to model the `||` chains of the
source. -/
def truthyNum (v : Option Nat) : Option Nat :=
  match v with
  | some n => if n = 0 then none else some n
  | none => none

/-- JS `a || b` on optional numeric values. -/
def jsOrNum (a b : Option Nat) : Option Nat :=
  match truthyNum a with
  | some n => some n
  | none => b

/-- Containment of `sep` as a contiguous sublist of the second argument,
scanning left to right (the Bool form of `String.prototype.includes`). -/
def listContains (sep : List Char) : List Char → Bool
  | [] => sep.isPrefixOf []
  | c :: t => sep.isPrefixOf (c :: t) || listContains sep t

/-- Fuel-driven splitter: splits the list at every non-overlapping
occurrence of `sep`, left to right, as `String.prototype.split` does for a
non-empty separator. -/
def jsSplitF (sep : List Char) : Nat → List Char → List (List Char)
  | 0, l => [l]
  | _ + 1, [] => [[]]
  | f + 1, c :: rest =>
    if sep ≠ [] ∧ sep.isPrefixOf (c :: rest) then
      [] :: jsSplitF sep f ((c :: rest).drop sep.length)
    else
      match jsSplitF sep f rest with
      | [] => [[c]]
      | h :: t => (c :: h) :: t

/-- JS `str.split(sep)` on character lists (non-empty separator). -/
def jsSplit (sep l : List Char) : List (List Char) :=
  jsSplitF sep (l.length + 1) l

/-- ASCII lowercasing of a string as a character list, the model of a
case-insensitive regex match target. -/
def toLowerList (s : String) : List Char :=
  s.data.map Char.toLower

/-- `snapshotRegex.test version` where `snapshotRegex` is the
case-insensitive regular expression matching the literal text `-snapshot`:
true when the lowercased version string contains `-snapshot`. -/
def snapshotRegex_test (version : String) : Bool :=
  listContains "-snapshot".data (toLowerList version)

theorem isPrefixOf_eq_true_iff {l₁ l₂ : List Char} :
    l₁.isPrefixOf l₂ = true ↔ ∃ t, l₁ ++ t = l₂ :=
  List.isPrefixOf_iff_prefix

theorem listContains_iff (sep : List Char) :
    ∀ l : List Char, listContains sep l = true ↔ ∃ s t, s ++ sep ++ t = l := by
  intro l
  induction l with
  | nil =>
    constructor
    · intro h
      obtain ⟨t, ht⟩ := isPrefixOf_eq_true_iff.mp h
      exact ⟨[], t, by simpa using ht⟩
    · rintro ⟨s, t, hst⟩
      rcases List.append_eq_nil.mp (List.append_eq_nil.mp hst).1 with ⟨hs, hsep⟩
      subst hsep
      exact isPrefixOf_eq_true_iff.mpr ⟨[], rfl⟩
  | cons c t ih =>
    simp only [listContains, Bool.or_eq_true, isPrefixOf_eq_true_iff, ih]
    constructor
    · rintro (⟨u, hu⟩ | ⟨s, u, hsu⟩)
      · exact ⟨[], u, by simpa using hu⟩
      · exact ⟨c :: s, u, by simp [hsu]⟩
    · rintro ⟨s, u, hsu⟩
      cases s with
      | nil => exact Or.inl ⟨u, by simpa using hsu⟩
      | cons a s' =>
        rw [List.cons_append, List.cons_append, List.cons.injEq] at hsu
        exact Or.inr ⟨s', u, by simpa using hsu.2⟩

/-- C6: the `kibanaStats.snapshot` flag handed to the bulk uploader is
`snapshotRegex.test(version)`, true exactly when the version string
contains `-snapshot` in any letter case; `7.10.0-SNAPSHOT` yields `true`
and `7.10.0` yields `false`. -/
theorem claim_C6_snapshot_flag :
    (∀ version : String, snapshotRegex_test version = true ↔
      ∃ s t, s ++ "-snapshot".data ++ t = toLowerList version)
    ∧ snapshotRegex_test "7.10.0-SNAPSHOT" = true
    ∧ snapshotRegex_test "7.10.0" = false :=
  ⟨fun v => listContains_iff "-snapshot".data (toLowerList v), by decide, by decide⟩

/-- The optional `output` field of a thrown value (Boom errors carry
`output.statusCode`). -/
structure ErrOutput where
  statusCode : Option Nat
deriving DecidableEq

/-- A thrown JS value as the bridge's catch block inspects it: the three
optional numeric status fields, Boom-ness, and the error message. -/
structure ErrObj where
  output : Option ErrOutput
  statusCode : Option Nat
  status : Option Nat
  isBoom : Bool
  message : String
deriving DecidableEq

/-- `err.output?.statusCode || err.statusCode || err.status || 500`
(plugin.ts:403-404), with JS truthiness on each numeric field. -/
def legacyStatusCode (err : ErrObj) : Nat :=
  match truthyNum (err.output.bind ErrOutput.statusCode) with
  | some n => n
  | none =>
    match truthyNum err.statusCode with
    | some n => n
    | none =>
      match truthyNum err.status with
      | some n => n
      | none => 500

/-- Boom's serialized payload message: 5xx statuses get the generic
envelope text, others keep the original message. -/
def boomPayloadMessage (statusCode : Nat) (message : String) : String :=
  if 500 ≤ statusCode then "An internal server error occurred" else message

/-- The `CustomHttpResponseOptions` value built by `wrapError`: the boom
output status and the serialized payload message. -/
structure WrappedResponse where
  statusCode : Nat
  bodyMessage : String
deriving DecidableEq

/-- `wrapError` (plugin.ts:61-69): boomify the error with
`statusCode: error.statusCode ?? 500` (kept as-is when already Boom) and
return the boom's output status code and payload. -/
def wrapError (error : ErrObj) : WrappedResponse :=
  let options := error.statusCode.getD 500
  if error.isBoom then
    { statusCode := (error.output.bind ErrOutput.statusCode).getD 500
      bodyMessage :=
        boomPayloadMessage ((error.output.bind ErrOutput.statusCode).getD 500) error.message }
  else
    { statusCode := options, bodyMessage := boomPayloadMessage options error.message }

/-- The three response shapes the bridge handler can produce:
`res.ok`, `res.customError` and `res.internalError`. -/
inductive LegacyResponse where
  | ok (body : String)
  | customError (statusCode : Nat) (body : ErrObj)
  | internalError (response : WrappedResponse)
deriving DecidableEq

/-- The catch block of the wrapped route handler (plugin.ts:402-409):
derive the status, then `res.customError` when the error is Boom or the
status is not 500, else `res.internalError(wrapError(err))`. -/
def handleLegacyError (err : ErrObj) : LegacyResponse :=
  let statusCode := legacyStatusCode err
  if err.isBoom || statusCode != 500 then .customError statusCode err
  else .internalError (wrapError err)

/-- The full result translation of the wrapped handler: success becomes
`res.ok`, a thrown value goes through the catch block. -/
def handleLegacyResult (result : Except ErrObj String) : LegacyResponse :=
  match result with
  | .ok r => .ok r
  | .error e => handleLegacyError e

def isInternalError : LegacyResponse → Bool
  | .internalError _ => true
  | _ => false

/-- A Boom error whose embedded output status is 500, e.g. `Boom.internal()`. -/
def errBoom500 : ErrObj :=
  { output := some ⟨some 500⟩, statusCode := none, status := none,
    isBoom := true, message := "boom internal" }

/-- A thrown object with `output.statusCode = 403`. -/
def err403 : ErrObj :=
  { output := some ⟨some 403⟩, statusCode := none, status := none,
    isBoom := false, message := "forbidden" }

/-- A plain `Error` with no status fields. -/
def errPlain : ErrObj :=
  { output := none, statusCode := none, status := none,
    isBoom := false, message := "kaboom" }

/-- C1 counterexample: a Boom error whose derived status is 500
(`errBoom500`, i.e. `Boom.internal()`) takes the structured
`res.customError` path carrying the raw error, not the opaque
internal-error envelope the claim requires for every derived status
of 500. -/
theorem claim_C1_counterexample :
    legacyStatusCode errBoom500 = 500
    ∧ handleLegacyError errBoom500 = .customError 500 errBoom500
    ∧ isInternalError (handleLegacyError errBoom500) = false := by
  decide

/-- C1 (amended): the status is derived in priority order
`err.output.statusCode`, else `err.statusCode`, else `err.status`, else
500 (JS truthiness); when the derived status is not 500 — or the error is
a Boom error, which takes the structured path even at status 500 — the
response is `res.customError` with that status carrying the original
error body; when the error is not Boom and the derived status is 500 the
response is the opaque internal-error envelope. A thrown object with
`output.statusCode = 403` yields a 403 structured response preserving the
error body, and a plain `Error` with no status fields yields a 500
response whose body is the generic envelope, not the raw message. -/
theorem claim_C1_amended (err : ErrObj) :
    (∀ n, truthyNum (err.output.bind ErrOutput.statusCode) = some n →
      legacyStatusCode err = n)
    ∧ (truthyNum (err.output.bind ErrOutput.statusCode) = none →
        ∀ n, truthyNum err.statusCode = some n → legacyStatusCode err = n)
    ∧ (truthyNum (err.output.bind ErrOutput.statusCode) = none →
        truthyNum err.statusCode = none →
        ∀ n, truthyNum err.status = some n → legacyStatusCode err = n)
    ∧ (truthyNum (err.output.bind ErrOutput.statusCode) = none →
        truthyNum err.statusCode = none → truthyNum err.status = none →
        legacyStatusCode err = 500)
    ∧ (legacyStatusCode err ≠ 500 →
        handleLegacyError err = .customError (legacyStatusCode err) err)
    ∧ (err.isBoom = true →
        handleLegacyError err = .customError (legacyStatusCode err) err)
    ∧ (err.isBoom = false → legacyStatusCode err = 500 →
        handleLegacyError err = .internalError (wrapError err))
    ∧ (err.isBoom = false → err.statusCode = none →
        (wrapError err).bodyMessage = "An internal server error occurred")
    ∧ handleLegacyError err403 = .customError 403 err403
    ∧ handleLegacyError errPlain = .internalError ⟨500, "An internal server error occurred"⟩
    ∧ errPlain.message ≠ "An internal server error occurred" := by
  refine ⟨?_, ?_, ?_, ?_, ?_, ?_, ?_, ?_, by decide, by decide, by decide⟩
  · intro n h
    simp [legacyStatusCode, h]
  · intro h n h2
    simp [legacyStatusCode, h, h2]
  · intro h h2 n h3
    simp [legacyStatusCode, h, h2, h3]
  · intro h h2 h3
    simp [legacyStatusCode, h, h2, h3]
  · intro h
    simp only [handleLegacyError]
    rw [if_pos]
    simp [h]
  · intro h
    simp [handleLegacyError, h]
  · intro h h2
    simp [handleLegacyError, h, h2]
  · intro h h2
    simp [wrapError, h, h2, boomPayloadMessage]

/-- Witness for the amended C1 at the concrete input `err403`. -/
theorem claim_C1_amended_witness :
    legacyStatusCode err403 ≠ 500
    ∧ handleLegacyError err403 = .customError (legacyStatusCode err403) err403 :=
  ⟨by decide, (claim_C1_amended err403).2.2.2.2.1 (by decide)⟩

/-- A license feature as returned by `license.getFeature(name)`. -/
structure Feature where
  isAvailable : Bool
  isEnabled : Bool
deriving DecidableEq

/-- A license emission: the feature table behind `license.getFeature`. -/
def License : Type := List (String × Feature)

/-- `license.getFeature(name)`. -/
def getFeature (license : License) (name : String) : Option Feature :=
  List.lookup name license

/-- `mainMonitoring && mainMonitoring.isAvailable && mainMonitoring.isEnabled`
(plugin.ts:210-212), with a missing feature falsy. -/
def licenseVerdict (license : License) : Bool :=
  match getFeature license "monitoring" with
  | some f => f.isAvailable && f.isEnabled
  | none => false

/-- Modelled from the spec: the `initBulkUploader` scheduler state
(`./kibana_monitoring`, outside this excerpt) — `running` is the
Stopped/Running state, `timerCreations` counts periodic timers ever
created, and the two call counters record invocations of `start` and
`handleNotEnabled`. -/
structure BulkUploader where
  running : Bool
  timerCreations : Nat
  startCalls : Nat
  notEnabledCalls : Nat
deriving DecidableEq

/-- Modelled from the spec: `bulkUploader.start` — the Stopped→Running
transition of §4.3 with the idempotent guard: starting while already
Running creates no second timer. -/
def BulkUploader.start (b : BulkUploader) : BulkUploader :=
  { b with
    startCalls := b.startCalls + 1
    running := true
    timerCreations := if b.running then b.timerCreations else b.timerCreations + 1 }

/-- Modelled from the spec: `bulkUploader.handleNotEnabled` — forces the
Running→Stopped transition of §4.3; it never creates a timer. -/
def BulkUploader.handleNotEnabled (b : BulkUploader) : BulkUploader :=
  { b with
    notEnabledCalls := b.notEnabledCalls + 1
    running := false }

/-- The license subscription body (plugin.ts:208-218): start the bulk
uploader when the monitoring feature is available and enabled, otherwise
handle not-enabled. -/
def onLicense (b : BulkUploader) (license : License) : BulkUploader :=
  if licenseVerdict license then b.start else b.handleNotEnabled

/-- A whole observed sequence of license emissions, in order. -/
def observeLicenses (b : BulkUploader) (emissions : List License) : BulkUploader :=
  emissions.foldl onLicense b

/-- The scheduler before any emission: Stopped, no timer ever created. -/
def initialUploader : BulkUploader := ⟨false, 0, 0, 0⟩

/-- C2: after any emission the scheduler is Running iff that emission's
monitoring feature was available and enabled (so after a whole sequence,
Running iff the last emission's verdict was true); each emission invokes
`start` exactly when the verdict is true and `handleNotEnabled` otherwise;
and no emission creates a second timer while one is already running. -/
theorem claim_C2_license_gated_scheduler :
    (∀ b l, (onLicense b l).running = licenseVerdict l)
    ∧ (∀ emissions last,
        (observeLicenses initialUploader (emissions ++ [last])).running = licenseVerdict last)
    ∧ (∀ b l, (onLicense b l).startCalls =
        b.startCalls + (if licenseVerdict l then 1 else 0))
    ∧ (∀ b l, (onLicense b l).notEnabledCalls =
        b.notEnabledCalls + (if licenseVerdict l then 0 else 1))
    ∧ (∀ b l, b.running = true → (onLicense b l).timerCreations = b.timerCreations)
    ∧ (∀ b l, licenseVerdict l = false → (onLicense b l).timerCreations = b.timerCreations) := by
  have hstep : ∀ b l, (onLicense b l).running = licenseVerdict l := by
    intro b l
    by_cases h : licenseVerdict l = true
    · simp [onLicense, h, BulkUploader.start]
    · simp only [Bool.not_eq_true] at h
      simp [onLicense, h, BulkUploader.handleNotEnabled]
  refine ⟨hstep, ?_, ?_, ?_, ?_, ?_⟩
  · intro emissions last
    simp only [observeLicenses, List.foldl_append, List.foldl_cons, List.foldl_nil]
    exact hstep _ last
  · intro b l
    by_cases h : licenseVerdict l = true
    · simp [onLicense, h, BulkUploader.start]
    · simp only [Bool.not_eq_true] at h
      simp [onLicense, h, BulkUploader.handleNotEnabled]
  · intro b l
    by_cases h : licenseVerdict l = true
    · simp [onLicense, h, BulkUploader.start]
    · simp only [Bool.not_eq_true] at h
      simp [onLicense, h, BulkUploader.handleNotEnabled]
  · intro b l hb
    by_cases h : licenseVerdict l = true
    · simp [onLicense, h, BulkUploader.start, hb]
    · simp only [Bool.not_eq_true] at h
      simp [onLicense, h, BulkUploader.handleNotEnabled]
  · intro b l h
    simp [onLicense, h, BulkUploader.handleNotEnabled]

/-- Witness for C2 at a concrete Running state and an enabled-license
emission: no second timer is created. -/
theorem claim_C2_witness :
    (onLicense ⟨true, 1, 1, 0⟩ [("monitoring", ⟨true, true⟩)]).timerCreations = 1 :=
  claim_C2_license_gated_scheduler.2.2.2.2.1 ⟨true, 1, 1, 0⟩
    [("monitoring", ⟨true, true⟩)] rfl

/-- The client selection inside `getCluster(name).callWithRequest`
(plugin.ts:388-389): `name === 'monitoring' ? cluster : esDataClient`.
Handles are modelled as opaque strings. -/
def getClusterClient (name cluster esDataClient : String) : String :=
  if name = "monitoring" then cluster else esDataClient

/-- A scoped cluster call: the client it was routed to, the endpoint and
the params (the `mbSafeQuery`-wrapped `callAsCurrentUser`). -/
structure QueryCall where
  client : String
  endpoint : String
  params : String
deriving DecidableEq

/-- `getCluster(name).callWithRequest(_req, endpoint, params)`
(plugin.ts:386-393). -/
def callWithRequest (name cluster esDataClient endpoint params : String) : QueryCall :=
  { client := getClusterClient name cluster esDataClient
    endpoint := endpoint
    params := params }

/-- The routing C3 claims: `monitoring` to the monitoring cluster, the
production cluster name to the data client, and a configuration error for
every other name. -/
def claimedGetCluster (name cluster esDataClient : String) : Except String String :=
  if name = "monitoring" then .ok cluster
  else if name = "data" then .ok esDataClient
  else .error ("Unrecognized cluster name: " ++ name)

/-- C3 counterexample: for the unrecognized cluster name `bogus` the code
silently routes to the data client, while the claim demands a
configuration error. -/
theorem claim_C3_counterexample :
    getClusterClient "bogus" "monitoringHandle" "dataHandle" = "dataHandle"
    ∧ (callWithRequest "bogus" "monitoringHandle" "dataHandle" "search" "q").client = "dataHandle"
    ∧ claimedGetCluster "bogus" "monitoringHandle" "dataHandle" =
        .error "Unrecognized cluster name: bogus" :=
  ⟨rfl, rfl, rfl⟩

/-- C3 (amended): `getCluster(name).callWithRequest` routes the call to
the monitoring cluster when the name is `monitoring` and to the
production/data cluster for every other name — unrecognized names are not
rejected, they silently default to the data cluster; endpoint and params
are passed through unchanged. -/
theorem claim_C3_amended (name cluster esDataClient endpoint params : String) :
    (callWithRequest "monitoring" cluster esDataClient endpoint params).client = cluster
    ∧ (name ≠ "monitoring" →
        (callWithRequest name cluster esDataClient endpoint params).client = esDataClient)
    ∧ (callWithRequest name cluster esDataClient endpoint params).endpoint = endpoint
    ∧ (callWithRequest name cluster esDataClient endpoint params).params = params := by
  refine ⟨by simp [callWithRequest, getClusterClient], ?_, rfl, rfl⟩
  intro h
  simp [callWithRequest, getClusterClient, h]

/-- Witness for the amended C3 at the concrete name `data`. -/
theorem claim_C3_amended_witness :
    ("data" : String) ≠ "monitoring"
    ∧ (callWithRequest "data" "m" "d" "search" "q").client = "d" :=
  ⟨by decide, (claim_C3_amended "data" "m" "d" "search" "q").2.1 (by decide)⟩

/-- A legacy `config.validate` value: either absent-or-false, or an
object with optional `payload` and `body` validators (validators are
opaque, modelled as strings). -/
inductive ValidateVal where
  | fls : ValidateVal
  | obj (payload : Option String) (body : Option String) : ValidateVal
deriving DecidableEq

/-- `const validate = get(options, 'config.validate', false)` followed by
`if (validate && validate.payload) validate.body = validate.payload`
(plugin.ts:412-415). -/
def resolveValidate (configValidate : Option ValidateVal) : ValidateVal :=
  let validate := configValidate.getD .fls
  match validate with
  | .fls => .fls
  | .obj payload body =>
    match payload with
    | some p => .obj payload (some p)
    | none => .obj payload body

/-- The declared legacy route options the shim reads. -/
structure RouteOptions where
  method : String
  path : String
  configValidate : Option ValidateVal
deriving DecidableEq

/-- The three router registration methods the shim can call. -/
inductive RouterMethod where
  | get : RouterMethod
  | post : RouterMethod
  | put : RouterMethod
deriving DecidableEq

/-- A route as handed to the router: which method list it landed on, its
path and its resolved `validate`. -/
structure RegisteredRoute where
  method : RouterMethod
  path : String
  validate : ValidateVal
deriving DecidableEq

/-- `route(options)` of the legacy shim (plugin.ts:342-427): resolve the
validate config onto `options.validate`, then dispatch POST/GET/PUT on
the router and throw `'Unsupport API method: ' + method` for anything
else, synchronously at registration. -/
def route (options : RouteOptions) : Except String RegisteredRoute :=
  let validate := resolveValidate options.configValidate
  if options.method = "POST" then
    .ok { method := .post, path := options.path, validate := validate }
  else if options.method = "GET" then
    .ok { method := .get, path := options.path, validate := validate }
  else if options.method = "PUT" then
    .ok { method := .put, path := options.path, validate := validate }
  else
    .error ("Unsupport API method: " ++ options.method)

/-- C4: `route` registers GET/POST/PUT on the matching router method and
throws an unsupported-method error for every other method string,
synchronously at registration (the error is produced by `route` itself,
before any request exists); in particular method `DELETE` throws. -/
theorem claim_C4_method_dispatch (o : RouteOptions) :
    (o.method = "GET" →
      route o = .ok ⟨.get, o.path, resolveValidate o.configValidate⟩)
    ∧ (o.method = "POST" →
      route o = .ok ⟨.post, o.path, resolveValidate o.configValidate⟩)
    ∧ (o.method = "PUT" →
      route o = .ok ⟨.put, o.path, resolveValidate o.configValidate⟩)
    ∧ (o.method ≠ "GET" → o.method ≠ "POST" → o.method ≠ "PUT" →
      route o = .error ("Unsupport API method: " ++ o.method))
    ∧ route ⟨"DELETE", "/api/monitoring/v1/clusters", none⟩ =
        .error "Unsupport API method: DELETE" := by
  refine ⟨?_, ?_, ?_, ?_, rfl⟩
  · intro h
    simp [route, h]
  · intro h
    simp [route, h]
  · intro h
    simp [route, h]
  · intro h1 h2 h3
    simp [route, h1, h2, h3]

/-- Witness for C4 at a concrete GET registration. -/
theorem claim_C4_witness :
    route ⟨"GET", "/api/monitoring/v1/clusters", none⟩ =
      .ok ⟨.get, "/api/monitoring/v1/clusters", .fls⟩ :=
  (claim_C4_method_dispatch ⟨"GET", "/api/monitoring/v1/clusters", none⟩).1 rfl

/-- C10: the validate configuration is `get(options, 'config.validate',
false)` — absent means disabled; a truthy validate with a truthy
`payload` gets that validator copied to `body`; the result is what every
successful registration hands to the router as `options.validate`. -/
theorem claim_C10_validate_resolution (o : RouteOptions) :
    (o.configValidate = none → resolveValidate o.configValidate = .fls)
    ∧ (o.configValidate = some .fls → resolveValidate o.configValidate = .fls)
    ∧ (∀ p b, o.configValidate = some (.obj (some p) b) →
        resolveValidate o.configValidate = .obj (some p) (some p))
    ∧ (∀ b, o.configValidate = some (.obj none b) →
        resolveValidate o.configValidate = .obj none b)
    ∧ (∀ r, route o = .ok r → r.validate = resolveValidate o.configValidate) := by
  refine ⟨?_, ?_, ?_, ?_, ?_⟩
  · intro h
    simp [resolveValidate, h]
  · intro h
    simp [resolveValidate, h]
  · intro p b h
    simp [resolveValidate, h]
  · intro b h
    simp [resolveValidate, h]
  · intro r h
    by_cases h1 : o.method = "POST"
    · simp only [route, h1, if_pos] at h
      cases h
      rfl
    · by_cases h2 : o.method = "GET"
      · simp [route, h1, h2] at h
        cases h
        rfl
      · by_cases h3 : o.method = "PUT"
        · simp [route, h1, h2, h3] at h
          cases h
          rfl
        · simp [route, h1, h2, h3] at h

/-- Witness for C10: a legacy payload validator reappears as the body
validator on a concrete POST registration. -/
theorem claim_C10_witness :
    route ⟨"POST", "/api/monitoring/v1/elasticsearch", some (.obj (some "pv") none)⟩ =
      .ok ⟨.post, "/api/monitoring/v1/elasticsearch", .obj (some "pv") (some "pv")⟩
    ∧ resolveValidate (some (.obj (some "pv") none)) = .obj (some "pv") (some "pv") := by
  have h := (claim_C10_validate_resolution
    ⟨"POST", "/api/monitoring/v1/elasticsearch", some (.obj (some "pv") none)⟩).2.2.1
    "pv" none rfl
  exact ⟨by rw [route]; simp [h], h⟩

/-- The plugin instance fields `stop()` consults, plus observation
counters for `cluster.close()` and `licenseService.stop()`. The two
truthiness flags model `this.cluster` / `this.licenseService`, which are
initialized to (truthy) empty objects and never cleared. -/
structure PluginLifecycle where
  clusterTruthy : Bool
  licenseServiceTruthy : Bool
  closeCalls : Nat
  licenseStopCalls : Nat
deriving DecidableEq

/-- `stop()` (plugin.ts:269-276): `if (this.cluster) this.cluster.close();
if (this.licenseService) this.licenseService.stop();` — no guard against
repeated invocation, and neither field is cleared. -/
def pluginStop (s : PluginLifecycle) : PluginLifecycle :=
  let s1 := if s.clusterTruthy then { s with closeCalls := s.closeCalls + 1 } else s
  if s1.licenseServiceTruthy then
    { s1 with licenseStopCalls := s1.licenseStopCalls + 1 }
  else s1

/-- The plugin after `setup`: cluster and license service assigned,
nothing released yet. -/
def pluginAfterSetup : PluginLifecycle := ⟨true, true, 0, 0⟩

theorem pluginStop_iterate (n : Nat) :
    pluginStop^[n] pluginAfterSetup = ⟨true, true, n, n⟩ := by
  induction n with
  | zero => rfl
  | succ k ih =>
    rw [Function.iterate_succ_apply', ih]
    rfl

/-- C5 counterexample: two `stop()` calls observe `close()` twice on the
cluster handle — the second call is not a no-op. -/
theorem claim_C5_counterexample :
    (pluginStop (pluginStop pluginAfterSetup)).closeCalls = 2
    ∧ (pluginStop (pluginStop pluginAfterSetup)).licenseStopCalls = 2 := by
  decide

/-- C5 (amended): `stop()` releases the monitoring cluster connection and
stops the license service, but it is not idempotent: every invocation
calls `close()` and `licenseService.stop()` again, so after n calls each
is observed n times. -/
theorem claim_C5_amended (s : PluginLifecycle) (n : Nat) :
    (s.clusterTruthy = true → (pluginStop s).closeCalls = s.closeCalls + 1)
    ∧ (s.licenseServiceTruthy = true →
        (pluginStop s).licenseStopCalls = s.licenseStopCalls + 1)
    ∧ (pluginStop^[n] pluginAfterSetup).closeCalls = n
    ∧ (pluginStop^[n] pluginAfterSetup).licenseStopCalls = n := by
  refine ⟨?_, ?_, ?_, ?_⟩
  · intro h
    by_cases h2 : s.licenseServiceTruthy = true
    · simp [pluginStop, h, h2]
    · simp only [Bool.not_eq_true] at h2
      simp [pluginStop, h, h2]
  · intro h2
    by_cases h : s.clusterTruthy = true
    · simp [pluginStop, h, h2]
    · simp only [Bool.not_eq_true] at h
      simp [pluginStop, h, h2]
  · rw [pluginStop_iterate]
  · rw [pluginStop_iterate]

/-- Witness for the amended C5 at the freshly-set-up plugin. -/
theorem claim_C5_amended_witness :
    pluginAfterSetup.clusterTruthy = true
    ∧ (pluginStop pluginAfterSetup).closeCalls = pluginAfterSetup.closeCalls + 1 :=
  ⟨rfl, (claim_C5_amended pluginAfterSetup 0).1 rfl⟩

/-- The two private plugin fields recorded by `start` and re-read by the
telemetry getters; client and service are opaque identifiers. -/
structure TelemetryFields where
  telemetryElasticsearchClient : Option String
  telemetrySavedObjectsService : Option String
deriving DecidableEq

/-- `esClientGetter: () => this.telemetryElasticsearchClient`
(plugin.ts:156): reads the field at call time. -/
def esClientGetter (s : TelemetryFields) : Option String :=
  s.telemetryElasticsearchClient

/-- `soServiceGetter: () => this.telemetrySavedObjectsService`
(plugin.ts:157): reads the field at call time. -/
def soServiceGetter (s : TelemetryFields) : Option String :=
  s.telemetrySavedObjectsService

/-- The fields before `start()` runs: both undefined. -/
def fieldsBeforeStart : TelemetryFields := ⟨none, none⟩

/-- `start({elasticsearch, savedObjects})` (plugin.ts:258-267): record the
started core's client and saved-objects service on the plugin. -/
def pluginStart (elasticsearchClient savedObjects : String)
    (_s : TelemetryFields) : TelemetryFields :=
  { telemetryElasticsearchClient := some elasticsearchClient
    telemetrySavedObjectsService := some savedObjects }

/-- C8: the getters handed to `registerMonitoringCollection` re-read the
plugin fields at call time — before `start()` they return `undefined`,
after `start()` they return exactly what `start()` recorded, and a getter
that once resolved to `undefined` is not cached: the same getter returns
the recorded value once `start()` has run. -/
theorem claim_C8_lazy_getters :
    esClientGetter fieldsBeforeStart = none
    ∧ soServiceGetter fieldsBeforeStart = none
    ∧ (∀ es so s, esClientGetter (pluginStart es so s) = some es)
    ∧ (∀ es so s, soServiceGetter (pluginStart es so s) = some so)
    ∧ (∀ es so s, esClientGetter s = none →
        esClientGetter (pluginStart es so s) = some es)
    ∧ (∀ es so s, soServiceGetter s = none →
        soServiceGetter (pluginStart es so s) = some so) :=
  ⟨rfl, rfl, fun _ _ _ => rfl, fun _ _ _ => rfl,
    fun _ _ _ _ => rfl, fun _ _ _ _ => rfl⟩

/-- Witness for C8: a getter that returned `undefined` before `start()`
returns the recorded client after `start()`. -/
theorem claim_C8_witness :
    esClientGetter fieldsBeforeStart = none
    ∧ esClientGetter (pluginStart "esClient1" "soService1" fieldsBeforeStart) =
        some "esClient1" :=
  ⟨rfl, claim_C8_lazy_getters.2.2.2.2.1 "esClient1" "soService1" fieldsBeforeStart rfl⟩

/-- What the collection-enabling branch of `setup` (plugin.ts:202-228)
produces: the uploader after any observed emissions, whether a license
subscription was created, and the warn/info lines logged. -/
structure CollectionSetupResult where
  uploader : BulkUploader
  subscribed : Bool
  warnLogs : List String
  infoLogs : List String
deriving DecidableEq

/-- The collection-enabling branch of `setup` (plugin.ts:202-228). The
licensing plugin is modelled as an optional list of the emissions a
subscription would observe; absent licensing logs the warning and
subscribes to nothing, disabled collection logs the info line and never
touches licensing. -/
def setupCollection (kibanaCollectionEnabled : Bool)
    (licensing : Option (List License)) (b : BulkUploader) : CollectionSetupResult :=
  if kibanaCollectionEnabled then
    match licensing with
    | some emissions =>
      { uploader := observeLicenses b emissions
        subscribed := true
        warnLogs := []
        infoLogs := [] }
    | none =>
      { uploader := b
        subscribed := false
        warnLogs := ["Internal collection for Kibana monitoring is disabled due to missing license information."]
        infoLogs := [] }
  else
    { uploader := b
      subscribed := false
      warnLogs := []
      infoLogs := ["Internal collection for Kibana monitoring is disabled per configuration."] }

/-- C9: with collection enabled but no licensing plugin, exactly the
missing-license warning is logged, no subscription is created and
`bulkUploader.start` is never invoked; with collection disabled, exactly
the per-configuration info line is logged, no subscription is created and
the uploader is untouched, whatever the licensing plugin. -/
theorem claim_C9_no_license_no_start (b : BulkUploader)
    (licensing : Option (List License)) :
    (setupCollection true none b).warnLogs =
      ["Internal collection for Kibana monitoring is disabled due to missing license information."]
    ∧ (setupCollection true none b).subscribed = false
    ∧ (setupCollection true none b).uploader.startCalls = b.startCalls
    ∧ (setupCollection true none b).uploader = b
    ∧ (setupCollection false licensing b).infoLogs =
      ["Internal collection for Kibana monitoring is disabled per configuration."]
    ∧ (setupCollection false licensing b).subscribed = false
    ∧ (setupCollection false licensing b).uploader = b
    ∧ (setupCollection false licensing b).warnLogs = [] :=
  ⟨rfl, rfl, rfl, rfl, rfl, rfl, rfl, rfl⟩

/-- `_key.includes('monitoring.') ? _key.split('monitoring.')[1] : _key`
(plugin.ts:324): element 1 of the split — the text between the first and
second occurrences when the separator occurs more than once. -/
def stripKey (_key : String) : String :=
  if listContains "monitoring.".data _key.data then
    String.mk ((jsSplit "monitoring.".data _key.data).getD 1 [])
  else _key

/-- Rejoin split segments with the separator. -/
def joinWithSep (sep : List Char) : List (List Char) → List Char
  | [] => []
  | [l] => l
  | l :: h :: t => l ++ sep ++ joinWithSep sep (h :: t)

/-- The strip C7 describes: remove everything up to and including the
first occurrence of `monitoring.` (i.e. keep the whole remainder of the
key, later occurrences included). -/
def claimedStrip (_key : String) : String :=
  if listContains "monitoring.".data _key.data then
    String.mk (joinWithSep "monitoring.".data ((jsSplit "monitoring.".data _key.data).tail))
  else _key

/-- lodash `has`/`get` over a config object, modelled as an association
list from flattened dotted paths to values. -/
def configLookup (cfg : List (String × String)) (key : String) : Option String :=
  List.lookup key cfg

/-- The legacy config wrapper's `get(_key)` (plugin.ts:322-338): strip the
key, then plugin config, then legacy global config, then the
`server.uuid` instance-UUID override, else throw naming the unknown key. -/
def legacyConfigGet (config legacyConfig : List (String × String))
    (instanceUuid : String) (_key : String) : Except String String :=
  let key := stripKey _key
  match configLookup config key with
  | some v => .ok v
  | none =>
    match configLookup legacyConfig key with
    | some v => .ok v
    | none =>
      if key = "server.uuid" then .ok instanceUuid
      else .error ("Unknown key '" ++ _key ++ "'")

/-- A config owning the key the claimed strip would produce on a
double-occurrence input. -/
def cfgWithNestedKey : List (String × String) := [("b.monitoring.c", "v")]

/-- C7 counterexample: on `a.monitoring.b.monitoring.c` the claim's strip
("everything up to and including `monitoring.`") keeps `b.monitoring.c`,
which the config maps to `v` — but the code takes split element 1, looks
up `b.` and throws the unknown-key error instead of returning `v`. -/
theorem claim_C7_counterexample :
    claimedStrip "a.monitoring.b.monitoring.c" = "b.monitoring.c"
    ∧ configLookup cfgWithNestedKey "b.monitoring.c" = some "v"
    ∧ stripKey "a.monitoring.b.monitoring.c" = "b."
    ∧ legacyConfigGet cfgWithNestedKey [] "uuid-1" "a.monitoring.b.monitoring.c" =
        .error "Unknown key 'a.monitoring.b.monitoring.c'" := by
  exact ⟨by decide, by decide, by decide, rfl⟩

/-- C7 (amended): when the key contains `monitoring.` the wrapper keeps
element 1 of the split on that separator (the segment between the first
and second occurrences when there are several; the whole remainder when
there is exactly one); lookup on the stripped key then falls back in the
order plugin config, legacy global config, the fixed `server.uuid`
instance-UUID override, and finally an error naming the unknown key. -/
theorem claim_C7_amended (config legacyConfig : List (String × String))
    (uuid _key : String) :
    (∀ v, configLookup config (stripKey _key) = some v →
        legacyConfigGet config legacyConfig uuid _key = .ok v)
    ∧ (configLookup config (stripKey _key) = none →
        ∀ v, configLookup legacyConfig (stripKey _key) = some v →
          legacyConfigGet config legacyConfig uuid _key = .ok v)
    ∧ (configLookup config (stripKey _key) = none →
        configLookup legacyConfig (stripKey _key) = none →
        stripKey _key = "server.uuid" →
        legacyConfigGet config legacyConfig uuid _key = .ok uuid)
    ∧ (configLookup config (stripKey _key) = none →
        configLookup legacyConfig (stripKey _key) = none →
        stripKey _key ≠ "server.uuid" →
        legacyConfigGet config legacyConfig uuid _key =
          .error ("Unknown key '" ++ _key ++ "'"))
    ∧ stripKey "xpack.monitoring.ui.enabled" = "ui.enabled"
    ∧ stripKey "kibana.index" = "kibana.index"
    ∧ stripKey "server.uuid" = "server.uuid" := by
  refine ⟨?_, ?_, ?_, ?_, by decide, by decide, by decide⟩
  · intro v h
    simp [legacyConfigGet, h]
  · intro h v h2
    simp [legacyConfigGet, h, h2]
  · intro h h2 h3
    rw [h3] at h h2
    simp [legacyConfigGet, h3, h, h2]
  · intro h h2 h3
    simp [legacyConfigGet, h, h2, h3]

/-- Witness for the amended C7: `ui.enabled` resolved from the plugin
config after stripping the `monitoring.` of the dotted key. -/
theorem claim_C7_amended_witness :
    configLookup [("ui.enabled", "true")] (stripKey "monitoring.ui.enabled") = some "true"
    ∧ legacyConfigGet [("ui.enabled", "true")] [] "uuid-1" "monitoring.ui.enabled" =
        .ok "true" := by
  have h : configLookup [("ui.enabled", "true")] (stripKey "monitoring.ui.enabled") =
      some "true" := by decide
  exact ⟨h, (claim_C7_amended [("ui.enabled", "true")] [] "uuid-1"
    "monitoring.ui.enabled").1 "true" h⟩
